import Mathlib

/-!
Shallow embedding of the power-monitor backend (src/index.js, with the
schedule-evaluator variant of src/unnamed/part_002) and proofs about it.

Conventions of the embedding:
* JavaScript NaN-producing time arithmetic is modelled by `Option Int`
  (`none` is NaN); every comparison with NaN is false, as in JS.
* A config field that may be absent or of the wrong type is an `Option`.
* Firebase writes are modelled as pure state transformations; the
  sentinel `admin.database.ServerValue.TIMESTAMP` is modelled as a
  `Unit` presence marker.
* Rational numbers stand for the JS floating-point arithmetic of the
  telemetry normalisation (all divisions in the source are by powers of
  ten of decimal device integers).
-/

namespace PowerMonitor

/-- JS number used in time parsing: `none` models NaN / undefined. -/
abbrev JSNum := Option Int

/-- JS multiplication where NaN propagates. -/
def jsMul : JSNum → JSNum → JSNum
  | some a, some b => some (a * b)
  | _, _ => none

/-- JS addition where NaN propagates. -/
def jsAdd : JSNum → JSNum → JSNum
  | some a, some b => some (a + b)
  | _, _ => none

/-- JS comparison a <= b; any comparison with NaN is false. -/
def jsLe : JSNum → JSNum → Bool
  | some a, some b => decide (a ≤ b)
  | _, _ => false

/-- JS comparison a < b; any comparison with NaN is false. -/
def jsLt : JSNum → JSNum → Bool
  | some a, some b => decide (a < b)
  | _, _ => false

/-- JS comparison a >= b; any comparison with NaN is false. -/
def jsGe : JSNum → JSNum → Bool
  | some a, some b => decide (a ≥ b)
  | _, _ => false

/-- Digits of a leading decimal run, or `none` when the first char is not a digit.
Models the digit-consuming part of the JS parseInt function. -/
def parseDigits (cs : List Char) : Option Nat :=
  let ds := cs.takeWhile Char.isDigit
  if ds.isEmpty then none
  else some (ds.foldl (fun a c => a * 10 + (c.toNat - 48)) 0)

/-- Model of the JS parseInt(s, 10): skip leading whitespace, optional sign,
leading decimal digits; NaN (here `none`) when no digit is found. Trailing
garbage is ignored, as in JS. -/
def parseIntJS (s : String) : JSNum :=
  match s.data.dropWhile Char.isWhitespace with
  | '-' :: rest => (parseDigits rest).map (fun n => -(n : Int))
  | '+' :: rest => (parseDigits rest).map (fun n => (n : Int))
  | rest => (parseDigits rest).map (fun n => (n : Int))

/-- The wall-clock data the schedule code reads from the JS Date object:
getDay (0=Sun..6=Sat), getHours, getMinutes. -/
structure DateTime where
  day : Nat
  hour : Nat
  minute : Nat
  deriving DecidableEq

/-- now.getHours() * 60 + now.getMinutes(), as in both evaluators. -/
def nowMinutes (now : DateTime) : Int := now.hour * 60 + now.minute

/-- The /schedule record as the evaluators read it. `days` is `none` when the
field is not an array (index.js checks Array.isArray, part_002 uses the
falsy-default `schedule.days || []`); `start`/`endTime` are `none` when the
field is missing or not a string (`endTime` embeds the JS field `end`, a
reserved word in Lean). -/
structure ScheduleCfg where
  isEnabled : Bool
  days : Option (List Bool)
  start : Option String
  endTime : Option String
  deriving DecidableEq

/-- Split a character list at every occurrence of `sep`, keeping empty pieces,
accumulating the current piece in reverse. -/
def splitSepAux (sep : Char) : List Char → List Char → List (List Char)
  | [], acc => [acc.reverse]
  | c :: rest, acc =>
    if c = sep then acc.reverse :: splitSepAux sep rest []
    else splitSepAux sep rest (c :: acc)

/-- Model of the JS String.split with a single-character separator: empty
pieces are kept and the empty string splits to one empty piece, as in JS. -/
def splitJS (sep : Char) (s : String) : List String :=
  (splitSepAux sep s.data []).map String.mk

/-- start.split(":").map(parseInt) followed by sh * 60 + sm with JS NaN and
undefined semantics (a missing second component is undefined, which makes the
sum NaN). Used by the index.js evaluator. -/
def minutesOfJS (s : String) : JSNum :=
  let parts := (splitJS ':' s).map parseIntJS
  jsAdd (jsMul (parts.getD 0 none) (some 60)) (parts.getD 1 none)

/-- The schedule evaluator of src/index.js (isWithinSchedule, lines 295-317):
enabled and day-active guards, defaults "08:00"/"21:00" for non-string
start/end, same-day window [start, end) when startMinutes <= endMinutes and
the overnight wrap otherwise. NaN comparisons are false. -/
def isWithinSchedule (now : DateTime) (cfg : Option ScheduleCfg) : Bool :=
  match cfg with
  | none => false
  | some cfg =>
    if !cfg.isEnabled then false
    else
      let days := cfg.days.getD []
      if !(days.getD now.day false) then false
      else
        let start := cfg.start.getD "08:00"
        let endStr := cfg.endTime.getD "21:00"
        let startMinutes := minutesOfJS start
        let endMinutes := minutesOfJS endStr
        let nowM : JSNum := some (nowMinutes now)
        if jsLe startMinutes endMinutes then
          jsGe nowM startMinutes && jsLt nowM endMinutes
        else
          jsGe nowM startMinutes || jsLt nowM endMinutes

/-- parseTimeStr of src/unnamed/part_002: falsy string defaults to "00:00",
then h-or-0 / m-or-0 (NaN and undefined collapse to 0 through the JS
or-default). -/
def parseTimeStr (str : String) : Int × Int :=
  let s := if str = "" then "00:00" else str
  let parts := (splitJS ':' s).map parseIntJS
  ((parts.getD 0 none).getD 0, (parts.getD 1 none).getD 0)

/-- The JS falsy-or default for an optional string field: `o || d` is `d`
when the field is missing or the empty string. -/
def jsOrStr (o : Option String) (d : String) : String :=
  match o with
  | some s => if s = "" then d else s
  | none => d

/-- The schedule evaluator of src/unnamed/part_002 (isWithinSchedule, lines
334-350): same guards, but the window test is always the same-day test
currentMinutes >= startMinutes AND currentMinutes < endMinutes, with no
overnight branch. -/
def isWithinSchedule002 (now : DateTime) (schedule : Option ScheduleCfg) : Bool :=
  match schedule with
  | none => false
  | some sch =>
    if !sch.isEnabled then false
    else
      let days := sch.days.getD []
      if !(days.getD now.day false) then false
      else
        let s := parseTimeStr (jsOrStr sch.start "08:00")
        let e := parseTimeStr (jsOrStr sch.endTime "21:00")
        let currentMinutes := nowMinutes now
        let startMinutes := s.1 * 60 + s.2
        let endMinutes := e.1 * 60 + e.2
        decide (currentMinutes ≥ startMinutes) && decide (currentMinutes < endMinutes)

/-! ## Telemetry normalisation (getDeviceStatus, src/index.js lines 141-157) -/

/-- A JS value as it occurs in a Tuya status item: a number or a boolean. -/
inductive JSVal where
  | num (q : ℚ)
  | boolean (b : Bool)
  deriving DecidableEq

/-- The JS Number conversion on a status value. -/
def jsNumber : JSVal → ℚ
  | .num q => q
  | .boolean b => if b then 1 else 0

/-- JS truthiness of a status value (the double-negation in the source). -/
def jsTruthy : JSVal → Bool
  | .num q => decide (q ≠ 0)
  | .boolean b => b

/-- One element of the res.data.result list of the Tuya status endpoint. -/
structure StatusItem where
  code : String
  value : JSVal
  deriving DecidableEq

/-- Normalised telemetry as returned by getDeviceStatus. -/
structure DeviceData where
  voltage : ℚ
  current : ℚ
  power : ℚ
  isOn : Bool
  loadOn : Bool
  deriving DecidableEq

/-- The fixed load threshold constant of src/index.js. -/
def LOAD_THRESHOLD_W : ℚ := 5

/-- Accumulator of the for-loop over the status list. -/
structure RawStatus where
  voltage : ℚ
  current : ℚ
  power : ℚ
  isOn : Bool
  deriving DecidableEq

/-- One iteration of the for-loop of getDeviceStatus: the four independent
code checks, scaling cur_voltage by 10, cur_current by 1000, cur_power by 10
and taking truthiness for switch_1. -/
def statusStep (acc : RawStatus) (item : StatusItem) : RawStatus :=
  let acc := if item.code = "cur_voltage" then { acc with voltage := jsNumber item.value / 10 } else acc
  let acc := if item.code = "cur_current" then { acc with current := jsNumber item.value / 1000 } else acc
  let acc := if item.code = "cur_power" then { acc with power := jsNumber item.value / 10 } else acc
  if item.code = "switch_1" then { acc with isOn := jsTruthy item.value } else acc

/-- The whole normalisation of getDeviceStatus: zero/false defaults, the
for-loop over the list, and loadOn = isOn AND power >= LOAD_THRESHOLD_W. -/
def normalizeStatus (list : List StatusItem) : DeviceData :=
  let acc := list.foldl statusStep ⟨0, 0, 0, false⟩
  { voltage := acc.voltage, current := acc.current, power := acc.power,
    isOn := acc.isOn, loadOn := acc.isOn && decide (acc.power ≥ LOAD_THRESHOLD_W) }

/-! ## Token-expiry retry (getDeviceStatus, src/index.js lines 104-139)

The remote API is modelled by a script: the list of responses the status
endpoint returns to the successive attempts of one getDeviceStatus call.
Token refresh (refreshAccessToken) is modelled as succeeding; the claims
about the retry path only concern the status endpoint's answers. -/

/-- The res.data.code field of a failed Tuya response: a number, a string, or
absent (the source compares it with strict equality against both the string
"1010" and the number 1010). -/
inductive TuyaCode where
  | num (n : Int)
  | str (s : String)
  | absent
  deriving DecidableEq

/-- The auth-expired test of the source: code === "1010" OR code === 1010. -/
def isExpiredCode : TuyaCode → Bool
  | .str s => s = "1010"
  | .num n => n = 1010
  | .absent => false

/-- One response of the status endpoint: success with a result list, or
failure with a code and a message. -/
inductive TuyaResp where
  | ok (result : List StatusItem)
  | fail (code : TuyaCode) (msg : String)
  deriving DecidableEq

/-- The retry loop of getDeviceStatus, one script entry per attempt. On a
failure whose code is the auth-expired code the source nulls the token,
re-authenticates and recursively calls itself; that recursion consumes the
next scripted response here. `refreshes` counts token refreshes performed so
far; the result also reports the total refresh count. `none` means the call
is still recursing when the script runs out (the recursion of the source has
no bound of its own). A non-expired failure throws msg-or-default. -/
def getDeviceStatusGo : List TuyaResp → Nat → Option (Except String (DeviceData × Nat))
  | [], _ => none
  | .ok list :: _, refreshes => some (.ok (normalizeStatus list, refreshes))
  | .fail code msg :: rest, refreshes =>
    if isExpiredCode code then getDeviceStatusGo rest (refreshes + 1)
    else some (.error (if msg = "" then "Failed to get status" else msg))

/-- A full getDeviceStatus call: ensureToken first refreshes when no token is
held, then the attempt loop runs against the script. -/
def getDeviceStatus (tokenHeld : Bool) (script : List TuyaResp) :
    Option (Except String (DeviceData × Nat)) :=
  getDeviceStatusGo script (if tokenHeld then 0 else 1)

/-! ## Toggle command and audit write (sendToggleCommand, src/index.js
lines 160-205) -/

/-- The control/lastAction audit record; `at` is the server-timestamp
sentinel, modelled as a presence marker. -/
structure LastAction where
  turnOn : Bool
  source : String
  «at» : Unit
  deriving DecidableEq

/-- Outcome oracle for one sendToggleCommand call: whether ensureToken
succeeds, whether the POST to the device endpoint succeeds (HTTP and
res.data.success), and whether the audit write to control/lastAction
succeeds. -/
structure ToggleEnv where
  tokenOk : Bool
  postOk : Bool
  auditOk : Bool
  deriving DecidableEq

/-- Result of one sendToggleCommand call. `ok` is whether the returned
promise resolves; `posted` lists the switch_1 values POSTed to the device
endpoint during the call; `devicePower` is the physical relay state after the
call; `lastAction` is the audit store location after the call. -/
structure ToggleResult where
  ok : Bool
  posted : List Bool
  devicePower : Bool
  lastAction : Option LastAction
  deriving DecidableEq

/-- sendToggleCommand: ensureToken, then the POST (a successful POST flips
the physical relay to `turnOn`), then the audit write; the call resolves only
when all three succeed, and a failed audit write rejects the call after the
relay has already changed. -/
def sendToggleCommand (turnOn : Bool) (source : String) (env : ToggleEnv)
    (devicePower : Bool) (lastAction : Option LastAction) : ToggleResult :=
  if !env.tokenOk then ⟨false, [], devicePower, lastAction⟩
  else if !env.postOk then ⟨false, [turnOn], devicePower, lastAction⟩
  else if env.auditOk then ⟨true, [turnOn], turnOn, some ⟨turnOn, source, ()⟩⟩
  else ⟨false, [turnOn], turnOn, lastAction⟩

/-! ## Process state and the two trigger paths (src/index.js lines 208-335) -/

/-- A pending /control/command record. -/
structure ManualCmd where
  turnOn : Bool
  deriving DecidableEq

/-- The status/current record. Every field is optional: statusRef.set
replaces the whole record, while statusRef.update merges only the given
fields into whatever is there. -/
structure StatusRecord where
  voltage : Option ℚ
  current : Option ℚ
  power : Option ℚ
  is_on : Option Bool
  load_on : Option Bool
  deviceOnline : Option Bool
  updatedAt : Option Unit
  lastError : Option String
  errorAt : Option Unit
  deriving DecidableEq

/-- One readings log entry (readingsRef.push payload). -/
structure Reading where
  voltage : ℚ
  current : ℚ
  power : ℚ
  is_on : Bool
  load_on : Bool
  timestamp : Unit
  deriving DecidableEq

/-- The process-local and store state the handlers read and write:
lastKnownRelay and scheduleConfig are the two module-level variables;
command, readings, status and lastAction are the store locations;
devicePower is the physical relay. -/
structure SysState where
  lastKnownRelay : Bool
  scheduleConfig : Option ScheduleCfg
  command : Option ManualCmd
  devicePower : Bool
  lastAction : Option LastAction
  readings : List Reading
  status : StatusRecord
  deriving DecidableEq

/-- The state right after module initialisation (src/index.js line 216:
lastKnownRelay starts false, scheduleConfig starts null), before any fetch or
toggle, with the given externally-authored command record and physical relay
state and an empty store. -/
def initSysState (command : Option ManualCmd) (devicePower : Bool) : SysState :=
  { lastKnownRelay := false, scheduleConfig := none, command := command,
    devicePower := devicePower, lastAction := none, readings := [],
    status := ⟨none, none, none, none, none, none, none, none, none⟩ }

/-- Result of one trigger-path invocation: the switch_1 values POSTed to the
device endpoint, and the state afterwards. -/
structure HandlerResult where
  posted : List Bool
  state : SysState
  deriving DecidableEq

/-- The commandRef.on value handler (src/index.js lines 230-250): a null
snapshot returns; a desired value equal to lastKnownRelay returns without
touching the store; otherwise sendToggleCommand runs with source "app" and
only on its success are lastKnownRelay updated and the command cleared (the
catch block swallows a failure, leaving both unchanged). -/
def handleCommand (st : SysState) (env : ToggleEnv) : HandlerResult :=
  match st.command with
  | none => ⟨[], st⟩
  | some cmd =>
    let desired := cmd.turnOn
    if desired == st.lastKnownRelay then ⟨[], st⟩
    else
      let r := sendToggleCommand desired "app" env st.devicePower st.lastAction
      if r.ok then
        ⟨r.posted, { st with lastKnownRelay := desired, devicePower := r.devicePower,
                             lastAction := r.lastAction, command := none }⟩
      else
        ⟨r.posted, { st with devicePower := r.devicePower, lastAction := r.lastAction }⟩

/-- enforceSchedule (src/index.js lines 319-335): returns when the config is
null or not enabled; evaluates isWithinSchedule; returns when the result
equals lastKnownRelay; otherwise sendToggleCommand with source "schedule",
updating lastKnownRelay only on success (the catch block swallows failure). -/
def enforceSchedule (now : DateTime) (st : SysState) (env : ToggleEnv) : HandlerResult :=
  match st.scheduleConfig with
  | none => ⟨[], st⟩
  | some cfg =>
    if !cfg.isEnabled then ⟨[], st⟩
    else
      let shouldBeOn := isWithinSchedule now st.scheduleConfig
      if shouldBeOn == st.lastKnownRelay then ⟨[], st⟩
      else
        let r := sendToggleCommand shouldBeOn "schedule" env st.devicePower st.lastAction
        if r.ok then
          ⟨r.posted, { st with lastKnownRelay := shouldBeOn, devicePower := r.devicePower,
                               lastAction := r.lastAction }⟩
        else
          ⟨r.posted, { st with devicePower := r.devicePower, lastAction := r.lastAction }⟩

/-! ## Polling cycle (pollStatusAndSave, src/index.js lines 256-289) -/

/-- The string the failure path stores as lastError: String(err.message or
err); an Error object with an empty message stringifies to the non-empty
"Error". -/
def jsErrorString (msg : String) : String :=
  if msg = "" then "Error" else msg

/-- pollStatusAndSave, with the result of the getDeviceStatus call passed in
(the error case carries the message of the thrown Error). Success updates
lastKnownRelay, appends one reading and replaces status/current with the
reading plus deviceOnline true; failure merges deviceOnline false, lastError
and errorAt into status/current and touches nothing else. -/
def pollStatusAndSave (fetched : Except String DeviceData) (st : SysState) : SysState :=
  match fetched with
  | .ok data =>
    let reading : Reading :=
      ⟨data.voltage, data.current, data.power, data.isOn, data.loadOn, ()⟩
    { st with lastKnownRelay := data.isOn,
              readings := st.readings ++ [reading],
              status := { voltage := some data.voltage, current := some data.current,
                          power := some data.power, is_on := some data.isOn,
                          load_on := some data.loadOn, deviceOnline := some true,
                          updatedAt := some (), lastError := none, errorAt := none } }
  | .error msg =>
    let updated :=
      { st.status with deviceOnline := some false,
                       lastError := some (jsErrorString msg), errorAt := some () }
    { st with status := updated }

/-! ## Request signing (calculateSign and the string-to-sign constructions,
src/index.js lines 55-57, 60-80, 104-118, 163-180)

SHA-256 (FIPS 180-4) and HMAC (FIPS 198-1) are implemented over `Nat` bytes
and 32-bit words reduced mod 2^32; they model the Node crypto calls
createHash("sha256") and createHmac("sha256", secret) on utf8 input. Strings
are converted byte-wise through the character code, which agrees with utf8 on
the ASCII data the source signs. -/

/-- 32-bit wrapping addition. -/
def add32 (a b : Nat) : Nat := (a + b) % 4294967296

/-- Right rotation of a 32-bit word. -/
def rotr32 (n x : Nat) : Nat := ((x >>> n) ||| (x <<< (32 - n))) % 4294967296

/-- Ch(x,y,z) of FIPS 180-4. -/
def ch32 (x y z : Nat) : Nat := (x &&& y) ^^^ ((x ^^^ 4294967295) &&& z)

/-- Maj(x,y,z) of FIPS 180-4. -/
def maj32 (x y z : Nat) : Nat := (x &&& y) ^^^ (x &&& z) ^^^ (y &&& z)

/-- Big sigma 0. -/
def bsig0 (x : Nat) : Nat := rotr32 2 x ^^^ rotr32 13 x ^^^ rotr32 22 x

/-- Big sigma 1. -/
def bsig1 (x : Nat) : Nat := rotr32 6 x ^^^ rotr32 11 x ^^^ rotr32 25 x

/-- Small sigma 0. -/
def ssig0 (x : Nat) : Nat := rotr32 7 x ^^^ rotr32 18 x ^^^ (x >>> 3)

/-- Small sigma 1. -/
def ssig1 (x : Nat) : Nat := rotr32 17 x ^^^ rotr32 19 x ^^^ (x >>> 10)

/-- The 64 SHA-256 round constants (FIPS 180-4, in decimal). -/
def sha256K : List Nat :=
  [1116352408, 1899447441, 3049323471, 3921009573, 961987163, 1508970993,
   2453635748, 2870763221, 3624381080, 310598401, 607225278, 1426881987,
   1925078388, 2162078206, 2614888103, 3248222580, 3835390401, 4022224774,
   264347078, 604807628, 770255983, 1249150122, 1555081692, 1996064986,
   2554220882, 2821834349, 2952996808, 3210313671, 3336571891, 3584528711,
   113926993, 338241895, 666307205, 773529912, 1294757372, 1396182291,
   1695183700, 1986661051, 2177026350, 2456956037, 2730485921, 2820302411,
   3259730800, 3345764771, 3516065817, 3600352804, 4094571909, 275423344,
   430227734, 506948616, 659060556, 883997877, 958139571, 1322822218,
   1537002063, 1747873779, 1955562222, 2024104815, 2227730452, 2361852424,
   2428436474, 2756734187, 3204031479, 3329325298]

/-- The eight SHA-256 initial hash values (FIPS 180-4, in decimal). -/
def sha256H0 : List Nat :=
  [1779033703, 3144134277, 1013904242, 2773480762,
   1359893119, 2600822924, 528734635, 1541459225]

/-- Append the next message-schedule word to a schedule prefix. -/
def schedStep (w : List Nat) : List Nat :=
  let n := w.length
  w ++ [add32 (ssig1 (w.getD (n - 2) 0))
        (add32 (w.getD (n - 7) 0) (add32 (ssig0 (w.getD (n - 15) 0)) (w.getD (n - 16) 0)))]

/-- Extend the 16 block words to the 64-word message schedule. -/
def msgSched (w16 : List Nat) : List Nat := schedStep^[48] w16

/-- One compression round on the eight-word working state, fed one
constant-and-schedule-word pair. -/
def sha256Round (st : List Nat) (kw : Nat × Nat) : List Nat :=
  let a := st.getD 0 0
  let b := st.getD 1 0
  let c := st.getD 2 0
  let d := st.getD 3 0
  let e := st.getD 4 0
  let f := st.getD 5 0
  let g := st.getD 6 0
  let h := st.getD 7 0
  let t1 := add32 h (add32 (bsig1 e) (add32 (ch32 e f g) (add32 kw.1 kw.2)))
  let t2 := add32 (bsig0 a) (maj32 a b c)
  [add32 t1 t2, a, b, c, add32 d t1, e, f, g]

/-- The 16 big-endian words of one 64-byte block. -/
def blockWords (block : List Nat) : List Nat :=
  (List.range 16).map (fun i =>
    block.getD (4 * i) 0 * 16777216 + block.getD (4 * i + 1) 0 * 65536 +
    block.getD (4 * i + 2) 0 * 256 + block.getD (4 * i + 3) 0)

/-- Compress one block into the eight-word hash state. -/
def sha256Compress (h : List Nat) (block : List Nat) : List Nat :=
  let st := ((sha256K.zip (msgSched (blockWords block))).foldl sha256Round h)
  (h.zip st).map (fun p => add32 p.1 p.2)

/-- SHA-256 padding: 0x80, zeros to 56 mod 64, then the 64-bit big-endian bit
length. -/
def sha256Pad (msg : List Nat) : List Nat :=
  let len := msg.length
  let zeros := (119 - len % 64) % 64
  let bits := 8 * len
  msg ++ [128] ++ List.replicate zeros 0 ++
    (List.range 8).map (fun i => (bits >>> (8 * (7 - i))) % 256)

/-- Big-endian bytes of an eight-word hash state. -/
def wordsToBytes (ws : List Nat) : List Nat :=
  ws.foldr (fun w acc =>
    (w >>> 24) % 256 :: (w >>> 16) % 256 :: (w >>> 8) % 256 :: w % 256 :: acc) []

/-- SHA-256 of a byte list, as 32 bytes. -/
def sha256Bytes (msg : List Nat) : List Nat :=
  let padded := sha256Pad msg
  wordsToBytes ((List.range (padded.length / 64)).foldl
    (fun h i => sha256Compress h ((padded.drop (64 * i)).take 64)) sha256H0)

/-- Lower-case hex digit of a value below 16. -/
def hexDigit (n : Nat) : Char :=
  if n < 10 then Char.ofNat (48 + n) else Char.ofNat (87 + n)

/-- Lower-case hex string of a byte list, two digits a byte, as the Node
digest("hex") produces. -/
def bytesToHex (bs : List Nat) : String :=
  String.mk (bs.foldr (fun b acc => hexDigit (b / 16) :: hexDigit (b % 16) :: acc) [])

/-- The bytes of a string through the character codes; equals the utf8 bytes
on the ASCII strings the source signs. -/
def strBytes (s : String) : List Nat := s.data.map Char.toNat

/-- SHA-256 hex digest of a string, modelling
createHash("sha256").update(s, "utf8").digest("hex"). -/
def sha256Hex (s : String) : String := bytesToHex (sha256Bytes (strBytes s))

/-- HMAC-SHA256 (FIPS 198-1) over byte lists with a 64-byte block: a long key
is hashed, the key is zero-padded, and the nested hash runs over the inner
and outer pads. Models createHmac("sha256", secret). -/
def hmacSha256 (key msg : List Nat) : List Nat :=
  let k0 := if 64 < key.length then sha256Bytes key else key
  let kp := k0 ++ List.replicate (64 - k0.length) 0
  sha256Bytes ((kp.map (fun b => b ^^^ 92)) ++ sha256Bytes ((kp.map (fun b => b ^^^ 54)) ++ msg))

/-- calculateSign of src/index.js: HMAC-SHA256 of the content keyed by the
secret, hex encoded and upper-cased. -/
def calculateSign (content : String) (secret : String) : String :=
  (bytesToHex (hmacSha256 (strBytes secret) (strBytes content))).toUpper

/-- The fixed empty-body hash literal of the source. -/
def EMPTY_BODY_HASH : String :=
  "e3b0c44298fc1c149afbf4c8996fb92427ae41e4649b934ca495991b7852b855"

/-- The string-to-sign of refreshAccessToken (no access token yet). -/
def tokenStringToSign (clientId timestamp : String) : String :=
  clientId ++ timestamp ++ "GET\n" ++ EMPTY_BODY_HASH ++ "\n\n" ++ "/v1.0/token?grant_type=1"

/-- The string-to-sign of getDeviceStatus. -/
def statusStringToSign (clientId accessToken timestamp path : String) : String :=
  clientId ++ accessToken ++ timestamp ++ "GET\n" ++ EMPTY_BODY_HASH ++ "\n\n" ++ path

/-- The string-to-sign of sendToggleCommand, whose content hash is the
SHA-256 hex digest of the JSON body. -/
def commandStringToSign (clientId accessToken timestamp path jsonBody : String) : String :=
  clientId ++ accessToken ++ timestamp ++ "POST\n" ++ sha256Hex jsonBody ++ "\n\n" ++ path

/-- Modelled from the spec: the signature construction the spec describes in
its SignedRequestBuilder contract: concatenate client-identifier, the token
when present, timestamp, method, a newline, the content hash, two newlines
and the path, then HMAC with the secret, hex-encoded and upper-cased. -/
def specSignature (clientId : String) (token : Option String)
    (timestamp method contentHash path secret : String) : String :=
  calculateSign
    (clientId ++ token.getD "" ++ timestamp ++ method ++ "\n" ++ contentHash ++ "\n" ++ "\n" ++ path)
    secret

/-! ## Concrete fixtures used by the theorems below -/

/-- A days array with every weekday active. -/
def allDays : List Bool := [true, true, true, true, true, true, true]

/-- An enabled overnight schedule, 21:00 to 06:00, every day. -/
def nightCfg : ScheduleCfg := ⟨true, some allDays, some "21:00", some "06:00"⟩

/-- An enabled same-day schedule, 08:00 to 21:00, every day. -/
def dayCfg : ScheduleCfg := ⟨true, some allDays, some "08:00", some "21:00"⟩

/-- An enabled but malformed schedule: start and end are missing. -/
def defaultsCfg : ScheduleCfg := ⟨true, some allDays, none, none⟩

/-- A toggle environment where every external operation succeeds. -/
def envOk : ToggleEnv := ⟨true, true, true⟩

/-- The empty status/current record. -/
def emptyStatus : StatusRecord := ⟨none, none, none, none, none, none, none, none, none⟩

/-- A running state with the given relay belief, schedule config and pending
command, and an otherwise empty store. -/
def baseState (relay : Bool) (cfg : Option ScheduleCfg) (cmd : Option ManualCmd) : SysState :=
  { lastKnownRelay := relay, scheduleConfig := cfg, command := cmd,
    devicePower := relay, lastAction := none, readings := [], status := emptyStatus }

end PowerMonitor

namespace PowerMonitor

/-! ## Helper lemmas -/

set_option maxRecDepth 100000

/-- The empty string has no minutes value (parseInt of no digits is NaN). -/
theorem minutesOfJS_empty : minutesOfJS "" = none := by decide

/-- When the index.js minute parse of a string succeeds, the part_002 parse
of the same string produces the same total minutes. -/
theorem parseTimeStr_of_minutesOfJS (str : String) (m : Int)
    (h : minutesOfJS str = some m) :
    (parseTimeStr str).1 * 60 + (parseTimeStr str).2 = m := by
  have hne : str ≠ "" := by
    intro he
    rw [he, minutesOfJS_empty] at h
    exact Option.noConfusion h
  simp only [minutesOfJS] at h
  simp only [parseTimeStr, if_neg hne]
  cases h0 : ((splitJS ':' str).map parseIntJS).getD 0 none with
  | none => rw [h0] at h; simp [jsMul, jsAdd] at h
  | some sh =>
    cases h1 : ((splitJS ':' str).map parseIntJS).getD 1 none with
    | none => rw [h0, h1] at h; simp [jsMul, jsAdd] at h
    | some sm =>
      rw [h0, h1] at h
      simp only [jsMul, jsAdd, Option.some.injEq] at h
      simp [h0, h1, h]

/-- When the index.js minute parse of the defaulted field succeeds, the
falsy-or default of part_002 picks the same string as the typeof-based
default of index.js. -/
theorem jsOrStr_of_minutesOfJS (o : Option String) (d : String) (m : Int)
    (h : minutesOfJS (o.getD d) = some m) : jsOrStr o d = o.getD d := by
  cases o with
  | none => rfl
  | some s =>
    simp only [Option.getD] at h ⊢
    by_cases hs : s = ""
    · rw [hs, minutesOfJS_empty] at h
      exact Option.noConfusion h
    · simp [jsOrStr, hs]

/-! ## C1: the schedule evaluator window semantics -/

/-- C1 counterexample: the claim also covers the isWithinSchedule variant of
src/unnamed/part_002 (cited by the claim), but for the enabled overnight
schedule 21:00-06:00 with every day active, at Wednesday 23:30 (so
startMinutes = 1260 > endMinutes = 360 and nowMinutes = 1410 >= startMinutes,
where the claim requires the evaluator to return true), that variant returns
false. -/
theorem C1_counterexample :
    nightCfg.isEnabled = true ∧
    (nightCfg.days.getD []).getD (3 : Nat) false = true ∧
    minutesOfJS (nightCfg.start.getD "08:00") = some 1260 ∧
    minutesOfJS (nightCfg.endTime.getD "21:00") = some 360 ∧
    (360 : Int) < 1260 ∧
    nowMinutes ⟨3, 23, 30⟩ ≥ 1260 ∧
    isWithinSchedule002 ⟨3, 23, 30⟩ (some nightCfg) = false := by
  decide

/-- C1 amended: for every datetime and enabled config whose active-days entry
for the weekday is true and whose (defaulted) start and end parse to minute
values s and e, the src/index.js evaluator returns exactly the claimed
window: for s <= e true iff s <= now < e (so s = e is an always-false
zero-width window), and for s > e true iff now >= s or now < e; the
src/unnamed/part_002 variant instead always applies the same-day test
s <= now < e, so its overnight windows are never active. -/
theorem C1_amended (now : DateTime) (cfg : ScheduleCfg) (s e : Int)
    (hen : cfg.isEnabled = true)
    (hday : (cfg.days.getD []).getD now.day false = true)
    (hs : minutesOfJS (cfg.start.getD "08:00") = some s)
    (he : minutesOfJS (cfg.endTime.getD "21:00") = some e) :
    (isWithinSchedule now (some cfg) =
      if s ≤ e then decide (s ≤ nowMinutes now) && decide (nowMinutes now < e)
      else decide (nowMinutes now ≥ s) || decide (nowMinutes now < e)) ∧
    isWithinSchedule002 now (some cfg) =
      (decide (nowMinutes now ≥ s) && decide (nowMinutes now < e)) := by
  constructor
  · simp only [isWithinSchedule, hen, hday, hs, he, Bool.not_true, Bool.false_eq_true,
      if_false, jsLe, jsGe, jsLt]
    by_cases hse : s ≤ e
    · simp [hse, ge_iff_le]
    · simp [hse, ge_iff_le]
  · have hs2 := parseTimeStr_of_minutesOfJS _ _ hs
    have he2 := parseTimeStr_of_minutesOfJS _ _ he
    have hos := jsOrStr_of_minutesOfJS _ _ _ hs
    have hoe := jsOrStr_of_minutesOfJS _ _ _ he
    simp only [isWithinSchedule002, hen, hday, Bool.not_true, Bool.false_eq_true, if_false,
      hos, hoe, hs2, he2, ge_iff_le]

/-- C1 witness: the amended theorem applied to the overnight schedule
21:00-06:00 at Wednesday 23:30, where the index.js evaluator is on and the
part_002 evaluator is off. -/
theorem C1_witness :
    isWithinSchedule ⟨3, 23, 30⟩ (some nightCfg) = true ∧
    isWithinSchedule002 ⟨3, 23, 30⟩ (some nightCfg) = false := by
  have h := C1_amended ⟨3, 23, 30⟩ nightCfg 1260 360 (by decide) (by decide) (by decide) (by decide)
  exact ⟨by rw [h.1]; decide, by rw [h.2]; decide⟩

/-! ## C2: no toggle command ever targets the current lastKnownRelay -/

/-- Whatever the environment, a sendToggleCommand call POSTs only values
satisfying any predicate its argument satisfies (the posted list is empty or
the singleton of the argument). -/
theorem sendToggle_posted_all (turnOn : Bool) (source : String) (env : ToggleEnv)
    (d : Bool) (la : Option LastAction) (p : Bool → Bool) (hp : p turnOn = true) :
    (sendToggleCommand turnOn source env d la).posted.all p = true := by
  unfold sendToggleCommand
  rcases env with ⟨tok, post, audit⟩
  cases tok <;> cases post <;> cases audit <;> simp [hp]

/-- C2: in any state, neither trigger path ever POSTs a switch value equal to
the current lastKnownRelay, and when the desired value equals lastKnownRelay
(a pending command requesting the already-believed state, or a schedule
evaluation equal to it) the invocation POSTs nothing at all. -/
theorem C2_no_redundant_toggle (st : SysState) (env : ToggleEnv) (now : DateTime) :
    ((handleCommand st env).posted.all (fun b => b != st.lastKnownRelay) = true) ∧
    ((enforceSchedule now st env).posted.all (fun b => b != st.lastKnownRelay) = true) ∧
    (∀ cmd, st.command = some cmd → cmd.turnOn = st.lastKnownRelay →
      (handleCommand st env).posted = []) ∧
    (isWithinSchedule now st.scheduleConfig = st.lastKnownRelay →
      (enforceSchedule now st env).posted = []) := by
  refine ⟨?_, ?_, ?_, ?_⟩
  · unfold handleCommand
    cases hc : st.command with
    | none => rfl
    | some cmd =>
      by_cases hbe : (cmd.turnOn == st.lastKnownRelay) = true
      · simp [hbe]
      · rw [Bool.not_eq_true] at hbe
        simp only [hbe, Bool.false_eq_true, if_false]
        have h := sendToggle_posted_all cmd.turnOn "app" env st.devicePower st.lastAction
          (fun b => b != st.lastKnownRelay) (by simp [bne, hbe])
        split <;> simpa using h
  · unfold enforceSchedule
    cases hc : st.scheduleConfig with
    | none => rfl
    | some cfg =>
      by_cases hen : cfg.isEnabled
      · by_cases hbe : (isWithinSchedule now (some cfg) == st.lastKnownRelay) = true
        · simp [hen, hbe]
        · rw [Bool.not_eq_true] at hbe
          simp only [hen, Bool.not_true, Bool.false_eq_true, if_false, hbe]
          have h := sendToggle_posted_all (isWithinSchedule now (some cfg)) "schedule" env
            st.devicePower st.lastAction (fun b => b != st.lastKnownRelay) (by simp [bne, hbe])
          split <;> simpa using h
      · simp [hen]
  · intro cmd hc heq
    unfold handleCommand
    rw [hc]
    simp [heq]
  · intro heq
    unfold enforceSchedule
    cases hc : st.scheduleConfig with
    | none => rfl
    | some cfg =>
      by_cases hen : cfg.isEnabled
      · rw [hc] at heq
        simp [hen, heq]
      · simp [hen]

/-- C2 witness: a state believing the relay is on, with a pending command
also requesting on, POSTs nothing. -/
theorem C2_witness :
    (handleCommand (baseState true none (some ⟨true⟩)) envOk).posted = [] :=
  (C2_no_redundant_toggle (baseState true none (some ⟨true⟩)) envOk ⟨0, 0, 0⟩).2.2.1
    ⟨true⟩ rfl rfl

/-! ## C3: token-expiry retry behaviour of getDeviceStatus -/

/-- C3: evaluation of the fetch at the failing input. A fetch whose first
scripted response is the auth-expired code 1010 and whose second succeeds
returns telemetry after exactly one re-authentication, as the claim states;
but a fetch that receives 1010 twice in a row does not fail: it silently
re-authenticates a second time and succeeds on the third attempt (the
recursion of src/index.js lines 131-138 retries on every 1010). -/
theorem C3_retry_behaviour :
    getDeviceStatus true [.fail (.num 1010) "token invalid", .ok []] =
      some (.ok (⟨0, 0, 0, false, false⟩, 1)) ∧
    getDeviceStatus true
        [.fail (.num 1010) "token invalid", .fail (.num 1010) "token invalid", .ok []] =
      some (.ok (⟨0, 0, 0, false, false⟩, 2)) ∧
    (∀ (rest : List TuyaResp) (code : TuyaCode) (msg : String) (k : Nat),
      isExpiredCode code = true →
      getDeviceStatusGo (.fail code msg :: rest) k = getDeviceStatusGo rest (k + 1)) := by
  refine ⟨rfl, rfl, ?_⟩
  intro rest code msg k hcode
  have hstep : getDeviceStatusGo (.fail code msg :: rest) k =
      if isExpiredCode code = true then getDeviceStatusGo rest (k + 1)
      else some (.error (if msg = "" then "Failed to get status" else msg)) := rfl
  rw [hstep, if_pos hcode]

/-- C3 witness: the retry step applied to the string form of the expired
code, which the source also accepts. -/
theorem C3_witness :
    getDeviceStatusGo [.fail (.str "1010") "token invalid", .ok []] 0 =
      getDeviceStatusGo [.ok []] 1 :=
  C3_retry_behaviour.2.2 [.ok []] (.str "1010") "token invalid" 0 rfl

/-! ## C4: manual command precedence and consumption -/

/-- C4: with a pending command whose desired value differs from
lastKnownRelay and all external operations succeeding, the command handler
POSTs exactly the command value (whatever the schedule config in the state
says: the handler never reads it), updates lastKnownRelay to it, clears the
command record, and a second invocation on the resulting state POSTs nothing,
so the command is consumed at most once. -/
theorem C4_manual_precedence (st : SysState) (env : ToggleEnv) (cmd : ManualCmd)
    (hc : st.command = some cmd)
    (hne : (cmd.turnOn == st.lastKnownRelay) = false)
    (htok : env.tokenOk = true) (hpost : env.postOk = true) (haud : env.auditOk = true) :
    (handleCommand st env).posted = [cmd.turnOn] ∧
    (handleCommand st env).state.lastKnownRelay = cmd.turnOn ∧
    (handleCommand st env).state.command = none ∧
    (handleCommand (handleCommand st env).state env).posted = [] := by
  have hr : sendToggleCommand cmd.turnOn "app" env st.devicePower st.lastAction =
      ⟨true, [cmd.turnOn], cmd.turnOn, some ⟨cmd.turnOn, "app", ()⟩⟩ := by
    unfold sendToggleCommand
    rw [htok, hpost, haud]
    rfl
  have h1 : handleCommand st env =
      ⟨[cmd.turnOn], { st with lastKnownRelay := cmd.turnOn, devicePower := cmd.turnOn,
                               lastAction := some ⟨cmd.turnOn, "app", ()⟩, command := none }⟩ := by
    unfold handleCommand
    rw [hc]
    simp [hne, hr]
  rw [h1]
  exact ⟨rfl, rfl, rfl, rfl⟩

/-- C4 witness: the schedule 08:00-21:00 evaluates to off at 23:00, yet the
pending manual command requesting on is applied: the handler POSTs on,
records on as last known, and clears the command. -/
theorem C4_witness :
    isWithinSchedule ⟨1, 23, 0⟩ (some dayCfg) = false ∧
    (handleCommand (baseState false (some dayCfg) (some ⟨true⟩)) envOk).posted = [true] ∧
    (handleCommand (baseState false (some dayCfg) (some ⟨true⟩)) envOk).state.command = none := by
  refine ⟨by decide, ?_, ?_⟩
  · exact (C4_manual_precedence (baseState false (some dayCfg) (some ⟨true⟩)) envOk
      ⟨true⟩ rfl rfl rfl rfl rfl).1
  · exact (C4_manual_precedence (baseState false (some dayCfg) (some ⟨true⟩)) envOk
      ⟨true⟩ rfl rfl rfl rfl rfl).2.2.1

/-! ## C5: the polling cycle on fetch failure and success -/

/-- C5: a failed fetch leaves the readings log untouched and merges
deviceOnline false, a non-empty lastError string and an errorAt stamp into
status/current; a successful fetch appends exactly one reading and replaces
status/current with a deviceOnline true record. -/
theorem C5_poll_offline_marking (st : SysState) (msg : String) (data : DeviceData) :
    (pollStatusAndSave (.error msg) st).readings = st.readings ∧
    (pollStatusAndSave (.error msg) st).status.deviceOnline = some false ∧
    (pollStatusAndSave (.error msg) st).status.lastError = some (jsErrorString msg) ∧
    ((jsErrorString msg == "") = false) ∧
    (pollStatusAndSave (.error msg) st).status.errorAt = some () ∧
    (pollStatusAndSave (.ok data) st).readings =
      st.readings ++ [⟨data.voltage, data.current, data.power, data.isOn, data.loadOn, ()⟩] ∧
    (pollStatusAndSave (.ok data) st).status.deviceOnline = some true := by
  refine ⟨rfl, rfl, rfl, ?_, rfl, rfl, rfl⟩
  unfold jsErrorString
  by_cases h : msg = ""
  · simp [h]
  · simp [h]

/-! ## C6: audit write is part of a successful toggle -/

/-- C6: a sendToggleCommand call that resolves has written the audit record
with its desired value and source to control/lastAction; and when the device
POST succeeds but the audit write fails, the call rejects even though the
physical relay has already changed to the commanded value. -/
theorem C6_audit_coupling (turnOn : Bool) (source : String) (env : ToggleEnv)
    (d : Bool) (la : Option LastAction) :
    ((sendToggleCommand turnOn source env d la).ok = true →
      (sendToggleCommand turnOn source env d la).lastAction = some ⟨turnOn, source, ()⟩) ∧
    (env.tokenOk = true → env.postOk = true → env.auditOk = false →
      (sendToggleCommand turnOn source env d la).ok = false ∧
      (sendToggleCommand turnOn source env d la).devicePower = turnOn) := by
  unfold sendToggleCommand
  rcases env with ⟨tok, post, audit⟩
  cases tok <;> cases post <;> cases audit <;> simp

/-- C6 witness: with the POST succeeding and the audit write failing, the
call rejects with the relay already on; with everything succeeding, the audit
record is written. -/
theorem C6_witness :
    (sendToggleCommand true "app" ⟨true, true, false⟩ false none).ok = false ∧
    (sendToggleCommand true "app" ⟨true, true, false⟩ false none).devicePower = true ∧
    (sendToggleCommand true "schedule" envOk false none).lastAction =
      some ⟨true, "schedule", ()⟩ := by
  refine ⟨?_, ?_, ?_⟩
  · exact ((C6_audit_coupling true "app" ⟨true, true, false⟩ false none).2 rfl rfl rfl).1
  · exact ((C6_audit_coupling true "app" ⟨true, true, false⟩ false none).2 rfl rfl rfl).2
  · exact (C6_audit_coupling true "schedule" envOk false none).1 rfl

/-! ## C7: telemetry normalisation -/

/-- C7: the normalisation divides cur_voltage by 10, cur_current by 1000 and
cur_power by 10, sets loadOn to deviceReportedOn AND power at least the fixed
threshold LOAD_THRESHOLD_W = 5, defaults every absent code to 0 / false, and
on the example raw list 2345 / 120 / 300 / on yields 234.5 V, 0.120 A,
30.0 W with the load active. -/
theorem C7_normalisation (v c p : ℚ) (b : Bool) :
    normalizeStatus [⟨"cur_voltage", .num v⟩, ⟨"cur_current", .num c⟩,
        ⟨"cur_power", .num p⟩, ⟨"switch_1", .boolean b⟩] =
      ⟨v / 10, c / 1000, p / 10, b, b && decide (p / 10 ≥ LOAD_THRESHOLD_W)⟩ ∧
    (∀ list : List StatusItem, (normalizeStatus list).loadOn =
      ((normalizeStatus list).isOn && decide ((normalizeStatus list).power ≥ LOAD_THRESHOLD_W))) ∧
    LOAD_THRESHOLD_W = 5 ∧
    normalizeStatus [] = ⟨0, 0, 0, false, false⟩ ∧
    normalizeStatus [⟨"cur_voltage", .num 2345⟩, ⟨"cur_current", .num 120⟩,
        ⟨"cur_power", .num 300⟩, ⟨"switch_1", .boolean true⟩] =
      ⟨2345 / 10, 120 / 1000, 300 / 10, true, true⟩ := by
  have key : ∀ (v c p : ℚ) (b : Bool),
      normalizeStatus [⟨"cur_voltage", .num v⟩, ⟨"cur_current", .num c⟩,
        ⟨"cur_power", .num p⟩, ⟨"switch_1", .boolean b⟩] =
      ⟨v / 10, c / 1000, p / 10, b, b && decide (p / 10 ≥ LOAD_THRESHOLD_W)⟩ :=
    fun _ _ _ _ => rfl
  refine ⟨key v c p b, fun _ => rfl, rfl, rfl, ?_⟩
  rw [key 2345 120 300 true]
  have hload : ((300 : ℚ) / 10 ≥ LOAD_THRESHOLD_W) := by norm_num [LOAD_THRESHOLD_W]
  simp [hload]

/-! ## C8: the request signature construction -/

/-- String concatenation is associative. -/
theorem strAppendAssoc (a b c : String) : a ++ b ++ c = a ++ (b ++ c) := by
  cases a with
  | mk da =>
    cases b with
    | mk db =>
      cases c with
      | mk dc => exact congrArg String.mk (List.append_assoc da db dc)

/-- The empty string is a right unit of concatenation. -/
theorem strAppendEmpty (a : String) : a ++ "" = a := by
  cases a with
  | mk da => exact congrArg String.mk (List.append_nil da)

/-- C8: the fixed empty-body hash literal of the source is the SHA-256 hex
digest of the empty body, and each of the three signatures the source
computes (token refresh, status fetch, command POST) is exactly the
spec-described construction: upper-cased hex HMAC-SHA256, keyed by the
secret, of clientId, the access token when present, the timestamp, the
method, a newline, the content hash (the SHA-256 hex of the body), two
newlines and the path. -/
theorem C8_signature (clientId accessToken timestamp path jsonBody secret : String) :
    sha256Hex "" = EMPTY_BODY_HASH ∧
    calculateSign (tokenStringToSign clientId timestamp) secret =
      specSignature clientId none timestamp "GET" EMPTY_BODY_HASH "/v1.0/token?grant_type=1"
        secret ∧
    calculateSign (statusStringToSign clientId accessToken timestamp path) secret =
      specSignature clientId (some accessToken) timestamp "GET" EMPTY_BODY_HASH path secret ∧
    calculateSign (commandStringToSign clientId accessToken timestamp path jsonBody) secret =
      specSignature clientId (some accessToken) timestamp "POST" (sha256Hex jsonBody) path
        secret := by
  have hGET : ("GET\n" : String) = "GET" ++ "\n" := rfl
  have hPOST : ("POST\n" : String) = "POST" ++ "\n" := rfl
  have hNN : ("\n\n" : String) = "\n" ++ "\n" := rfl
  refine ⟨by decide, ?_, ?_, ?_⟩
  · unfold tokenStringToSign specSignature
    rw [hGET, hNN]
    simp [strAppendAssoc, strAppendEmpty, Option.getD]
  · unfold statusStringToSign specSignature
    rw [hGET, hNN]
    simp [strAppendAssoc, Option.getD]
  · unfold commandStringToSign specSignature
    rw [hPOST, hNN]
    simp [strAppendAssoc, Option.getD]

/-! ## C9: malformed schedule configs -/

/-- C9 counterexample: an enabled schedule with every day active but both
start and end missing is malformed in the sense of the claim, yet at Monday
10:00 the evaluator returns true (the defaults 08:00 and 21:00 take over)
and the schedule path POSTs an ON command when the relay is believed off. -/
theorem C9_counterexample :
    defaultsCfg.start = none ∧ defaultsCfg.endTime = none ∧ defaultsCfg.isEnabled = true ∧
    isWithinSchedule ⟨1, 10, 0⟩ (some defaultsCfg) = true ∧
    (enforceSchedule ⟨1, 10, 0⟩ (baseState false (some defaultsCfg) none) envOk).posted =
      [true] := by
  decide

/-- C9 amended: a days field that is not an array makes the evaluator return
false, but a missing or non-string start or end is replaced by the default
"08:00" or "21:00" rather than disabling enforcement: the evaluation is the
same as with the defaults written in explicitly, and for any enabled config
the schedule path still POSTs a toggle (with the evaluated, possibly
default-window, value) whenever that value differs from lastKnownRelay. -/
theorem C9_amended (now : DateTime) (cfg : ScheduleCfg) (st : SysState) (env : ToggleEnv) :
    (cfg.days = none → isWithinSchedule now (some cfg) = false) ∧
    (isWithinSchedule now (some cfg) =
      isWithinSchedule now (some { cfg with start := some (cfg.start.getD "08:00"),
                                            endTime := some (cfg.endTime.getD "21:00") })) ∧
    (st.scheduleConfig = some cfg → cfg.isEnabled = true → env.tokenOk = true →
      (isWithinSchedule now st.scheduleConfig == st.lastKnownRelay) = false →
      (enforceSchedule now st env).posted = [isWithinSchedule now st.scheduleConfig]) := by
  refine ⟨?_, rfl, ?_⟩
  · intro hdays
    simp only [isWithinSchedule, hdays]
    cases cfg.isEnabled <;> simp
  · intro hc hen htok hbe
    unfold enforceSchedule
    rw [hc] at hbe ⊢
    simp only [hen, Bool.not_true, Bool.false_eq_true, if_false, hbe]
    unfold sendToggleCommand
    rcases env with ⟨tok, post, audit⟩
    cases tok with
    | true => cases post <;> cases audit <;> simp
    | false => exact absurd htok (by simp)

/-- C9 witness: at Monday 23:00 the defaulted window of the malformed config
is inactive, and with the relay believed on the schedule path POSTs an OFF
command, so a malformed enabled schedule still enforces. -/
theorem C9_witness :
    (enforceSchedule ⟨1, 23, 0⟩ (baseState true (some defaultsCfg) none) envOk).posted =
      [false] := by
  have h := (C9_amended ⟨1, 23, 0⟩ defaultsCfg (baseState true (some defaultsCfg) none)
    envOk).2.2 rfl rfl rfl (by decide)
  exact h.trans (by decide)

/-! ## C10: initial relay belief and an early OFF command -/

/-- C10: lastKnownRelay is initialised to false, so a pending manual command
requesting off that is handled before any successful fetch POSTs nothing to
the device and leaves the command record in the store uncleared. -/
theorem C10_initial_state :
    (initSysState (some ⟨false⟩) true).lastKnownRelay = false ∧
    (handleCommand (initSysState (some ⟨false⟩) true) envOk).posted = [] ∧
    (handleCommand (initSysState (some ⟨false⟩) true) envOk).state.command = some ⟨false⟩ := by
  decide

end PowerMonitor
